import Mathlib

/-!
# Verification of the student-attendance backend (`src/backend/app.py`)

A shallow embedding of the Flask + MongoDB backend: the three collections
become explicit lists inside a `DB` state, the MongoDB primitives used by the
code (`find_one`, `insert_one`, `update_one` with `upsert=True`) become list
operations, and each HTTP handler becomes a pure function from an optional
request body and a `DB` to a response together with the resulting `DB`.

Modelling conventions:
* A BSON `ObjectId` is represented by its 24-character lowercase hex string
  rendering; the `ObjectId(s)` constructor on strings is modelled by its
  documented contract (succeeds exactly on 24-character hex strings, the
  library itself being an external collaborator of this repository), and
  equality of `ObjectId`s is case-insensitive on the hex form, so parsing
  normalises to lowercase.
* A Python `datetime` is a `DateTime` record of calendar fields; MongoDB
  compares datetimes by their absolute value, modelled by `dtSecs`.
* Python truthiness of the request fields (`data[field]` after `field in
  data`) is modelled by `truthyS` / `truthyL` on `Option` fields: an absent
  key is `none`, and the empty string / empty list are falsy.
-/

/-- `True` on the hexadecimal digits `0-9`, `a-f`, `A-F`. -/
def isHexChar (c : Char) : Bool :=
  c.isDigit
    || (decide (97 ≤ c.toNat) && decide (c.toNat ≤ 102))
    || (decide (65 ≤ c.toNat) && decide (c.toNat ≤ 70))

/-- The lowercase-hex normal form of an id string, as produced by
`str(ObjectId(...))`; used whenever the code wraps an already validated
string in `ObjectId(...)` for a query. -/
def oidNorm (s : String) : String := String.mk (s.data.map Char.toLower)

/-- Model of the BSON `ObjectId` constructor on a string argument: per its
documented contract it succeeds exactly on 24-character hex strings, and the
resulting id is the case-insensitive hex value, normalised here to the
lowercase rendering that `str(ObjectId(...))` produces. -/
def parseObjectId (s : String) : Option String :=
  if s.length == 24 && s.data.all isHexChar then some (oidNorm s) else none

/-- `is_valid_objectId` from `app.py`: try to build an `ObjectId` from the
string; any failure is caught and returned as `false`. -/
def is_valid_objectId (id_string : String) : Bool :=
  (parseObjectId id_string).isSome

/-- Gregorian leap-year test, as in Python's `datetime`. -/
def isLeap (y : Nat) : Bool :=
  (y % 4 == 0 && y % 100 != 0) || y % 400 == 0

/-- Number of days in month `m` of year `y` (months are 1-based). -/
def daysInMonth (y m : Nat) : Nat :=
  if m == 2 then (if isLeap y then 29 else 28)
  else if m == 4 || m == 6 || m == 9 || m == 11 then 30
  else 31

/-- Days in year `y` before the first day of month `m`. -/
def daysBeforeMonth (y m : Nat) : Nat :=
  (List.range (m - 1)).foldl (fun a i => a + daysInMonth y (i + 1)) 0

/-- Days from 0001-01-01 to year `y`, month `m`, day `d` in the proleptic
Gregorian calendar. -/
def dateDays (y m d : Nat) : Nat :=
  365 * (y - 1) + ((y - 1) / 4 - (y - 1) / 100 + (y - 1) / 400)
    + daysBeforeMonth y m + (d - 1)

/-- A Python `datetime` value (microseconds are never used by the code). -/
structure DateTime where
  year : Nat
  month : Nat
  day : Nat
  hour : Nat
  minute : Nat
  second : Nat
deriving DecidableEq, Repr

/-- Absolute second count of a `DateTime`; MongoDB orders and compares stored
datetimes by this value. -/
def dtSecs (t : DateTime) : Nat :=
  86400 * dateDays t.year t.month t.day + 3600 * t.hour + 60 * t.minute + t.second

/-- Numeric value of a digit string. -/
def digitsVal (l : List Char) : Nat :=
  l.foldl (fun a c => 10 * a + (c.toNat - 48)) 0

/-- Split a character list at every `'-'` (the groups between dashes, as in
`"a-b-c".split('-')`). -/
def splitOnDash : List Char → List (List Char)
  | [] => [[]]
  | c :: cs =>
    match splitOnDash cs with
    | [] => [[]]
    | g :: gs => if c = '-' then [] :: g :: gs else (c :: g) :: gs

/-- Model of `datetime.strptime(s, '%Y-%m-%d')`: a four-digit year, a one- or
two-digit month and day, separated by `-`, with the month in `1..12`, the day
within the month, and the year at least 1; the time of day is midnight.
Any other input raises `ValueError`, modelled by `none`. -/
def parseDate (s : String) : Option DateTime :=
  match splitOnDash s.data with
  | [ys, ms, ds] =>
    if ys.length == 4 && ys.all Char.isDigit
        && (ms.length == 1 || ms.length == 2) && ms.all Char.isDigit
        && (ds.length == 1 || ds.length == 2) && ds.all Char.isDigit then
      let y := digitsVal ys
      let m := digitsVal ms
      let d := digitsVal ds
      if decide (1 ≤ y) && decide (1 ≤ m) && decide (m ≤ 12)
          && decide (1 ≤ d) && decide (d ≤ daysInMonth y m) then
        some ⟨y, m, d, 0, 0, 0⟩
      else none
    else none
  | _ => none

/-- Left-pad the decimal rendering of `n` with zeros to width `w`. -/
def padNum (w n : Nat) : String :=
  let s := toString n
  String.mk (List.replicate (w - s.length) '0' ++ s.data)

/-- Python's `datetime.isoformat()` for the values the code stores:
`YYYY-MM-DDTHH:MM:SS`. -/
def isoformat (t : DateTime) : String :=
  padNum 4 t.year ++ "-" ++ padNum 2 t.month ++ "-" ++ padNum 2 t.day
    ++ "T" ++ padNum 2 t.hour ++ ":" ++ padNum 2 t.minute ++ ":" ++ padNum 2 t.second

/-- A document of the students collection (the required fields; `_id` is the
store-assigned `ObjectId`, kept as its hex string). -/
structure StudentDoc where
  oid : String
  student_id : String
  first_name : String
  last_name : String
  email : String
deriving DecidableEq, Repr

/-- A document of the courses collection. -/
structure CourseDoc where
  oid : String
  course_code : String
  course_name : String
deriving DecidableEq, Repr

/-- A document of the attendance collection: `student_id` and `course_id` are
`ObjectId` references (hex strings), `date` a stored datetime. -/
structure AttendanceDoc where
  oid : String
  student_id : String
  course_id : String
  date : DateTime
  status : String
  notes : String
deriving DecidableEq, Repr

/-- The state of the document store, plus a counter from which fresh
`ObjectId`s are drawn at insert time. -/
structure DB where
  students : List StudentDoc
  courses : List CourseDoc
  attendance : List AttendanceDoc
  nextOid : Nat
deriving DecidableEq, Repr

/-- The fresh `ObjectId` (24 hex chars) assigned by the store to the `n`-th
inserted document. -/
def freshOid (n : Nat) : String :=
  let h := Nat.toDigits 16 n
  String.mk (List.replicate (24 - h.length) '0' ++ h)

/-- Truthiness of an optional string field of the request body: absent and
`""` are falsy. -/
def truthyS : Option String → Bool
  | none => false
  | some s => !(s == "")

/-- Truthiness of an optional list field of the request body: absent and `[]`
are falsy. -/
def truthyL {α : Type} : Option (List α) → Bool
  | some (_ :: _) => true
  | _ => false

/-- One entry of the `records` array of a `POST /attendance` body. -/
structure MarkEntry where
  student_id : Option String
  status : Option String
  notes : Option String
deriving DecidableEq, Repr

/-- The body of a `POST /attendance` request (fields may be absent). -/
structure MarkBody where
  course_id : Option String
  date : Option String
  records : Option (List MarkEntry)
deriving DecidableEq, Repr

/-- The body of a `POST /students` request (extension fields beyond the four
required ones play no role in any behaviour verified here). -/
structure StudentBody where
  student_id : Option String
  first_name : Option String
  last_name : Option String
  email : Option String
deriving DecidableEq, Repr

/-- The per-entry echo object appended to `processed` by `mark_attendance`. -/
structure Echo where
  student_id : String
  course_id : String
  date : String
  status : String
  notes : String
deriving DecidableEq, Repr

/-- An attendance record as rendered by the GET handlers: every field a
string, the date in ISO form. -/
structure RenderedAttendance where
  oid : String
  student_id : String
  course_id : String
  date : String
  status : String
  notes : String
deriving DecidableEq, Repr

/-- Response of `mark_attendance`: 200 with the processed echoes, or an error
status and message. -/
inductive MarkResp
  | ok (processed : List Echo)
  | err (code : Nat) (msg : String)
deriving DecidableEq, Repr

/-- Response of `get_attendance_by_course_and_date`. -/
inductive ListResp
  | ok (records : List RenderedAttendance)
  | err (code : Nat) (msg : String)
deriving DecidableEq, Repr

/-- Response of `add_student`. -/
inductive CreateResp
  | created (doc : StudentDoc)
  | err (code : Nat) (msg : String)
deriving DecidableEq, Repr

/-- `students_collection.find_one({"_id": ObjectId(sid)})` is some document. -/
def studentExists (db : DB) (sidOid : String) : Bool :=
  db.students.any (fun s => s.oid == sidOid)

/-- `courses_collection.find_one({"_id": ObjectId(cid)})` is some document. -/
def courseExists (db : DB) (cidOid : String) : Bool :=
  db.courses.any (fun c => c.oid == cidOid)

/-- The filter document of the attendance upsert: equality on the
`(student_id, course_id, date)` triple, dates compared by value. -/
def matchesTriple (sidOid cidOid : String) (d : DateTime) (r : AttendanceDoc) : Bool :=
  r.student_id == sidOid && r.course_id == cidOid && dtSecs r.date == dtSecs d

/-- `$set` of `status` and `notes` on a matched document. -/
def setStatusNotes (st nt : String) (r : AttendanceDoc) : AttendanceDoc :=
  { r with status := st, notes := nt }

/-- `update_one` touches only the first document matching the filter. -/
def updateFirst {α : Type} (p : α → Bool) (f : α → α) : List α → List α
  | [] => []
  | r :: rs => if p r then f r :: rs else r :: updateFirst p f rs

/-- `attendance_collection.update_one(filter, {"$set": ...}, upsert=True)`:
update the first document matching the triple in place, or, with no match,
insert a new document made of the filter's equality fields, the `$set`
fields, and a fresh `_id`. -/
def upsertAttendance (db : DB) (sidOid cidOid : String) (d : DateTime)
    (st nt : String) : DB :=
  if db.attendance.any (matchesTriple sidOid cidOid d) then
    { db with attendance :=
        updateFirst (matchesTriple sidOid cidOid d) (setStatusNotes st nt) db.attendance }
  else
    { db with
        attendance := db.attendance ++ [⟨freshOid db.nextOid, sidOid, cidOid, d, st, nt⟩],
        nextOid := db.nextOid + 1 }

/-- The first failing per-entry check of the `mark_attendance` loop body, as
`(status code, message)`; `none` when the entry passes all four checks. -/
def entryError (db : DB) (course_id : String) (e : MarkEntry) : Option (Nat × String) :=
  if !(truthyS e.student_id && truthyS e.status) then
    some (400, "Each record must include student_id and status")
  else if !is_valid_objectId (e.student_id.getD "") then
    some (400, "Invalid student_id: " ++ e.student_id.getD "")
  else if !studentExists db (oidNorm (e.student_id.getD "")) then
    some (404, "Student not found: " ++ e.student_id.getD "")
  else if !courseExists db (oidNorm course_id) then
    some (404, "Course not found: " ++ course_id)
  else
    none

/-- The loop of `mark_attendance` over `data['records']`: each entry is
checked, then upserted, and its echo collected; the first failing entry
returns its error immediately, keeping the writes already performed. -/
def processRecords (course_id : String) (d : DateTime) :
    List MarkEntry → DB → MarkResp × DB
  | [], db => (.ok [], db)
  | e :: rest, db =>
    match entryError db course_id e with
    | some (c, m) => (.err c m, db)
    | none =>
      let db1 := upsertAttendance db (oidNorm (e.student_id.getD ""))
        (oidNorm course_id) d (e.status.getD "") (e.notes.getD "")
      let echo : Echo :=
        ⟨e.student_id.getD "", course_id, isoformat d, e.status.getD "", e.notes.getD ""⟩
      match processRecords course_id d rest db1 with
      | (.ok l, db2) => (.ok (echo :: l), db2)
      | (.err c m, db2) => (.err c m, db2)

/-- The `POST /attendance` handler `mark_attendance` from `app.py`. -/
def mark_attendance (body : Option MarkBody) (db : DB) : MarkResp × DB :=
  match body with
  | none => (.err 400 "No data provided", db)
  | some data =>
    if !(truthyS data.course_id && truthyS data.date && truthyL data.records) then
      (.err 400 "Missing required fields: course_id, date, records", db)
    else
      let course_id := data.course_id.getD ""
      if !is_valid_objectId course_id then
        (.err 400 "Invalid course_id", db)
      else
        match parseDate (data.date.getD "") with
        | none => (.err 400 "Invalid date format. Use YYYY-MM-DD", db)
        | some attendance_date =>
          processRecords course_id attendance_date (data.records.getD []) db

/-- Rendering of a stored attendance document by the GET handlers: ids via
`str(...)`, the date via `isoformat()`. -/
def renderAttendance (r : AttendanceDoc) : RenderedAttendance :=
  ⟨r.oid, r.student_id, r.course_id, isoformat r.date, r.status, r.notes⟩

/-- The `GET /attendance/<course_id>/<date_str>` handler
`get_attendance_by_course_and_date` from `app.py`: validate the id, parse the
date, query `course_id` equality and `date` in `[start, start + 1 day)`, and
render each match in store order. -/
def get_attendance_by_course_and_date (course_id date_str : String) (db : DB) :
    ListResp :=
  if !is_valid_objectId course_id then
    .err 400 "Invalid course_id format"
  else
    match parseDate date_str with
    | none => .err 400 "Invalid date format. Use YYYY-MM-DD"
    | some start =>
      let found := db.attendance.filter (fun r =>
        r.course_id == oidNorm course_id
          && (decide (dtSecs start ≤ dtSecs r.date)
              && decide (dtSecs r.date < dtSecs start + 86400)))
      .ok (found.foldl (fun acc r => acc ++ [renderAttendance r]) [])

/-- The `POST /students` handler `add_student` from `app.py`. -/
def add_student (body : Option StudentBody) (db : DB) : CreateResp × DB :=
  match body with
  | none => (.err 400 "No data provided", db)
  | some data =>
    if !(truthyS data.student_id && truthyS data.first_name
        && truthyS data.last_name && truthyS data.email) then
      (.err 400 "Missing required fields: student_id, first_name, last_name, email", db)
    else if db.students.any (fun s => s.student_id == data.student_id.getD "") then
      (.err 409 "Student with this ID already exists", db)
    else if db.students.any (fun s => s.email == data.email.getD "") then
      (.err 409 "Student with this email already exists", db)
    else
      let doc : StudentDoc :=
        ⟨freshOid db.nextOid, data.student_id.getD "", data.first_name.getD "",
          data.last_name.getD "", data.email.getD ""⟩
      (.created doc, { db with students := db.students ++ [doc], nextOid := db.nextOid + 1 })

/-- Number of attendance documents matching a given triple. -/
def countTriple (db : DB) (sidOid cidOid : String) (d : DateTime) : Nat :=
  db.attendance.countP (matchesTriple sidOid cidOid d)

/-- The §3 invariant: at most one attendance record per
(student, course, date) triple. -/
def UniqueTriples (db : DB) : Prop :=
  ∀ sidOid cidOid d, countTriple db sidOid cidOid d ≤ 1

/-- The state reached after upserting, in order, a prefix of entries of a
`mark_attendance` batch (the loop's write effect on the store). -/
def applyEntry (course_id : String) (d : DateTime) (db : DB) (e : MarkEntry) : DB :=
  upsertAttendance db (oidNorm (e.student_id.getD "")) (oidNorm course_id) d
    (e.status.getD "") (e.notes.getD "")

/-- Fold of `applyEntry` over a list of entries. -/
def applyEntries (course_id : String) (d : DateTime) (es : List MarkEntry) (db : DB) : DB :=
  es.foldl (applyEntry course_id d) db

/-! ### Basic lemmas about the embedded operations -/

lemma upsertAttendance_students (db : DB) (sid cid : String) (d : DateTime) (st nt : String) :
    (upsertAttendance db sid cid d st nt).students = db.students := by
  unfold upsertAttendance; split <;> rfl

lemma upsertAttendance_courses (db : DB) (sid cid : String) (d : DateTime) (st nt : String) :
    (upsertAttendance db sid cid d st nt).courses = db.courses := by
  unfold upsertAttendance; split <;> rfl

lemma entryError_congr (db db' : DB) (cid : String) (e : MarkEntry)
    (hs : db'.students = db.students) (hc : db'.courses = db.courses) :
    entryError db' cid e = entryError db cid e := by
  unfold entryError studentExists courseExists
  rw [hs, hc]

lemma applyEntry_students (cid : String) (d : DateTime) (db : DB) (e : MarkEntry) :
    (applyEntry cid d db e).students = db.students :=
  upsertAttendance_students ..

lemma applyEntry_courses (cid : String) (d : DateTime) (db : DB) (e : MarkEntry) :
    (applyEntry cid d db e).courses = db.courses :=
  upsertAttendance_courses ..

lemma applyEntries_cons (cid : String) (d : DateTime) (e : MarkEntry)
    (es : List MarkEntry) (db : DB) :
    applyEntries cid d (e :: es) db = applyEntries cid d es (applyEntry cid d db e) :=
  rfl

lemma applyEntries_students (cid : String) (d : DateTime) (es : List MarkEntry) (db : DB) :
    (applyEntries cid d es db).students = db.students := by
  induction es generalizing db with
  | nil => rfl
  | cons e es ih => rw [applyEntries_cons, ih, applyEntry_students]

lemma applyEntries_courses (cid : String) (d : DateTime) (es : List MarkEntry) (db : DB) :
    (applyEntries cid d es db).courses = db.courses := by
  induction es generalizing db with
  | nil => rfl
  | cons e es ih => rw [applyEntries_cons, ih, applyEntry_courses]

lemma valid_truthy (s : String) (h : is_valid_objectId s = true) :
    truthyS (some s) = true := by
  rcases eq_or_ne s "" with rfl | hne
  · exact absurd h (by decide)
  · simp [truthyS, hne]

lemma parseDate_truthy (s : String) (d : DateTime) (h : parseDate s = some d) :
    truthyS (some s) = true := by
  rcases eq_or_ne s "" with rfl | hne
  · rw [show parseDate "" = none from rfl] at h; cases h
  · simp [truthyS, hne]

lemma mark_attendance_unfold (db : DB) (cid dstr : String) (d : DateTime)
    (recs : List MarkEntry) (hcv : is_valid_objectId cid = true)
    (hd : parseDate dstr = some d) (hne : truthyL (some recs) = true) :
    mark_attendance (some ⟨some cid, some dstr, some recs⟩) db
      = processRecords cid d recs db := by
  simp [mark_attendance, valid_truthy _ hcv, parseDate_truthy _ _ hd, hne, hcv, hd]

lemma processRecords_cons_err (cid : String) (d : DateTime) (e : MarkEntry)
    (rest : List MarkEntry) (db : DB) (c : Nat) (m : String)
    (h : entryError db cid e = some (c, m)) :
    processRecords cid d (e :: rest) db = (.err c m, db) := by
  simp [processRecords, h]

lemma processRecords_cons_ok (cid : String) (d : DateTime) (e : MarkEntry)
    (rest : List MarkEntry) (db : DB) (h : entryError db cid e = none) :
    processRecords cid d (e :: rest) db
      = match processRecords cid d rest (applyEntry cid d db e) with
        | (.ok l, db2) =>
          (.ok (⟨e.student_id.getD "", cid, isoformat d, e.status.getD "",
            e.notes.getD ""⟩ :: l), db2)
        | (.err c m, db2) => (.err c m, db2) := by
  simp [processRecords, h, applyEntry]

lemma string_beq_eq_decide (a b : String) : (a == b) = decide (a = b) := by
  by_cases h : a = b <;> simp [h]

lemma foldl_append_singleton {α β : Type} (f : α → β) :
    ∀ (l : List α) (acc : List β),
      l.foldl (fun a r => a ++ [f r]) acc = acc ++ l.map f := by
  intro l
  induction l with
  | nil => intro acc; simp
  | cons x xs ih => intro acc; simp [ih]

/-! ### Concrete fixtures used by the witness theorems -/

/-- A lowercase 24-hex student `ObjectId`. -/
def wSid : String := "aaaaaaaaaaaaaaaaaaaaaaaa"

/-- A lowercase 24-hex course `ObjectId`. -/
def wCid : String := "bbbbbbbbbbbbbbbbbbbbbbbb"

/-- A lowercase 24-hex id referencing no stored student. -/
def wGhost : String := "cccccccccccccccccccccccc"

/-- A store holding one student and one course and no attendance. -/
def wDb : DB :=
  ⟨[⟨wSid, "S1", "Ada", "Lovelace", "ada@example.com"⟩],
   [⟨wCid, "CS101", "Intro to CS"⟩], [], 0⟩

/-- The parsed form of the date string used by the witnesses. -/
def wDate : DateTime := ⟨2024, 1, 5, 0, 0, 0⟩

/-! ### C3: the identifier validator accepts exactly 24-character hex strings -/

/-- C3: for every string, `is_valid_objectId` returns `true` iff the string
is a 24-character hexadecimal token; every malformed input (empty, wrong
length, or containing a non-hex character) yields `false`. -/
theorem is_valid_objectId_iff_hex24 (s : String) :
    is_valid_objectId s = true ↔
      s.length = 24 ∧ ∀ c ∈ s.data,
        c.isDigit = true ∨ (97 ≤ c.toNat ∧ c.toNat ≤ 102)
          ∨ (65 ≤ c.toNat ∧ c.toNat ≤ 70) := by
  have h : is_valid_objectId s = (s.length == 24 && s.data.all isHexChar) := by
    unfold is_valid_objectId parseObjectId
    split <;> simp_all
  rw [h]
  simp [List.all_eq_true, isHexChar, or_assoc]

/-- Witness for C3 at a concrete well-formed id. -/
theorem is_valid_objectId_iff_hex24_witness :
    is_valid_objectId "5f8d0d55b54764421b7156c9" = true :=
  (is_valid_objectId_iff_hex24 "5f8d0d55b54764421b7156c9").mpr (by decide)

/-! ### C9: the identifier validator is total; parse failure becomes `false` -/

/-- C9: the validator converts any failure of the `ObjectId` parse into the
boolean result `false`, and any successful parse into `true`: it is a total
pure function of its string argument and never propagates a failure. -/
theorem is_valid_objectId_never_raises (s : String) :
    (parseObjectId s = none → is_valid_objectId s = false) ∧
    (∀ v, parseObjectId s = some v → is_valid_objectId s = true) := by
  constructor
  · intro h; simp [is_valid_objectId, h]
  · intro v h; simp [is_valid_objectId, h]

/-- Witness for C9 at a concrete unparsable id. -/
theorem is_valid_objectId_never_raises_witness :
    is_valid_objectId "not-a-valid-objectid" = false :=
  (is_valid_objectId_never_raises "not-a-valid-objectid").1 rfl

/-! ### C7: GET attendance validates the course id, then the date -/

/-- C7: for `GET /attendance/<course_id>/<date_str>`, a malformed course id
yields 400 regardless of the date string and of the store contents; a
well-formed course id with an unparsable date yields 400 for the date; the
id check precedes the date check. -/
theorem get_attendance_validation_order (course_id date_str : String) (db : DB) :
    (is_valid_objectId course_id = false →
      get_attendance_by_course_and_date course_id date_str db
        = .err 400 "Invalid course_id format") ∧
    (is_valid_objectId course_id = true → parseDate date_str = none →
      get_attendance_by_course_and_date course_id date_str db
        = .err 400 "Invalid date format. Use YYYY-MM-DD") := by
  constructor
  · intro h; simp [get_attendance_by_course_and_date, h]
  · intro h hd; simp [get_attendance_by_course_and_date, h, hd]

/-- Witness for C7: the id `"abc"` is rejected with 400 even though the date
is fine and the store holds a course. -/
theorem get_attendance_validation_order_witness :
    get_attendance_by_course_and_date "abc" "2024-01-05" wDb
      = .err 400 "Invalid course_id format" :=
  (get_attendance_validation_order "abc" "2024-01-05" wDb).1 rfl

/-! ### C10: an empty `records` array is rejected as a missing field -/

/-- C10: a `POST /attendance` body whose `records` field is the empty array
is rejected with the 400 missing-fields error, whatever the other fields
hold, and the store is unchanged. -/
theorem mark_attendance_empty_records_rejected (db : DB) (cid dt : Option String) :
    mark_attendance (some ⟨cid, dt, some []⟩) db
      = (.err 400 "Missing required fields: course_id, date, records", db) := by
  simp [mark_attendance, truthyL]

/-! ### C5: GET attendance returns exactly the course's records of that day -/

/-- C5: for a well-formed course id and a date string parsing to `d`,
`get_attendance_by_course_and_date` returns exactly the stored records whose
course reference equals the id and whose stored date lies in the half-open
day interval `[d, d + 1 day)` — whatever their time-of-day component — in
store order, each rendered with id, student reference, course reference and
date as strings. -/
theorem get_attendance_filters_course_and_day (db : DB) (course_id date_str : String)
    (d : DateTime) (hcv : is_valid_objectId course_id = true)
    (hd : parseDate date_str = some d) :
    get_attendance_by_course_and_date course_id date_str db
      = .ok ((db.attendance.filter (fun r =>
          decide (r.course_id = oidNorm course_id)
            && (decide (dtSecs d ≤ dtSecs r.date)
                && decide (dtSecs r.date < dtSecs d + 86400)))).map
          (fun r => ⟨r.oid, r.student_id, r.course_id, isoformat r.date,
            r.status, r.notes⟩)) := by
  simp only [get_attendance_by_course_and_date, hcv, hd, Bool.not_true,
    Bool.false_eq_true, if_false]
  rw [foldl_append_singleton renderAttendance]
  rw [List.nil_append]
  have hp : ∀ r : AttendanceDoc,
      (r.course_id == oidNorm course_id
        && (decide (dtSecs d ≤ dtSecs r.date)
            && decide (dtSecs r.date < dtSecs d + 86400)))
      = (decide (r.course_id = oidNorm course_id)
        && (decide (dtSecs d ≤ dtSecs r.date)
            && decide (dtSecs r.date < dtSecs d + 86400))) := by
    intro r; rw [string_beq_eq_decide]
  rw [List.filter_congr (fun r _ => hp r)]
  rfl

/-- Witness for C5: with one matching record stored at 10:30 on the queried
day and one record of another course, the handler returns exactly the
rendered matching record. -/
theorem get_attendance_filters_course_and_day_witness :
    get_attendance_by_course_and_date wCid "2024-01-05"
      ⟨[], [],
       [⟨"dddddddddddddddddddddddd", wSid, wCid, ⟨2024, 1, 5, 10, 30, 0⟩, "present", ""⟩,
        ⟨"eeeeeeeeeeeeeeeeeeeeeeee", wSid, wGhost, ⟨2024, 1, 5, 0, 0, 0⟩, "present", ""⟩],
       0⟩
      = .ok [⟨"dddddddddddddddddddddddd", wSid, wCid, "2024-01-05T10:30:00",
          "present", ""⟩] := by
  rw [get_attendance_filters_course_and_day _ _ _ wDate (by decide) (by decide)]
  decide

/-! ### C4: student creation checks `student_id` uniqueness, then `email` -/

/-- C4: with all required fields present and non-empty, `add_student`
rejects with 409 naming the id when some stored student has the same
`student_id` (whatever the emails), rejects with 409 naming the email when
no id collides but some stored student has the same `email`, and otherwise
inserts exactly the new document; in the rejecting cases the store is
unchanged. -/
theorem add_student_uniqueness_checks (db : DB) (data : StudentBody)
    (h1 : truthyS data.student_id = true) (h2 : truthyS data.first_name = true)
    (h3 : truthyS data.last_name = true) (h4 : truthyS data.email = true) :
    (db.students.any (fun s => s.student_id == data.student_id.getD "") = true →
      add_student (some data) db = (.err 409 "Student with this ID already exists", db)) ∧
    (db.students.any (fun s => s.student_id == data.student_id.getD "") = false →
      db.students.any (fun s => s.email == data.email.getD "") = true →
      add_student (some data) db = (.err 409 "Student with this email already exists", db)) ∧
    (db.students.any (fun s => s.student_id == data.student_id.getD "") = false →
      db.students.any (fun s => s.email == data.email.getD "") = false →
      add_student (some data) db =
        (.created ⟨freshOid db.nextOid, data.student_id.getD "", data.first_name.getD "",
            data.last_name.getD "", data.email.getD ""⟩,
          { db with
              students := db.students ++ [⟨freshOid db.nextOid, data.student_id.getD "",
                data.first_name.getD "", data.last_name.getD "", data.email.getD ""⟩],
              nextOid := db.nextOid + 1 })) := by
  refine ⟨fun hid => ?_, fun hid hem => ?_, fun hid hem => ?_⟩
  · simp [add_student, h1, h2, h3, h4, hid]
  · simp [add_student, h1, h2, h3, h4, hid, hem]
  · simp [add_student, h1, h2, h3, h4, hid, hem]

/-- Witness for C4: a second student with the stored `student_id` but a
fresh email is rejected 409 on the id, leaving the store unchanged. -/
theorem add_student_uniqueness_checks_witness :
    add_student (some ⟨some "S1", some "Alan", some "Turing", some "alan@example.com"⟩) wDb
      = (.err 409 "Student with this ID already exists", wDb) :=
  (add_student_uniqueness_checks wDb
    ⟨some "S1", some "Alan", some "Turing", some "alan@example.com"⟩
    rfl rfl rfl rfl).1 (by decide)

/-! ### Lemmas about the attendance upsert -/

lemma matchesTriple_set (sid cid : String) (d : DateTime) (st nt : String)
    (r : AttendanceDoc) :
    matchesTriple sid cid d (setStatusNotes st nt r) = matchesTriple sid cid d r := rfl

lemma countP_updateFirst {α : Type} (p q : α → Bool) (f : α → α)
    (hf : ∀ a, q (f a) = q a) :
    ∀ l : List α, (updateFirst p f l).countP q = l.countP q := by
  intro l
  induction l with
  | nil => rfl
  | cons r rs ih =>
    by_cases h : p r = true
    · simp [updateFirst, h, List.countP_cons, hf]
    · simp [updateFirst, h, List.countP_cons, ih]

lemma matchesTriple_new (sid cid : String) (d : DateTime) (o st nt : String) :
    matchesTriple sid cid d ⟨o, sid, cid, d, st, nt⟩ = true := by
  simp [matchesTriple]

lemma countTriple_upsert_self (db : DB) (sid cid : String) (d : DateTime)
    (st nt : String) (h : countTriple db sid cid d ≤ 1) :
    countTriple (upsertAttendance db sid cid d st nt) sid cid d = 1 := by
  unfold countTriple at *
  unfold upsertAttendance
  by_cases hany : db.attendance.any (matchesTriple sid cid d) = true
  · simp only [hany, if_true]
    rw [countP_updateFirst _ _ _ (matchesTriple_set sid cid d st nt)]
    have h1 : 0 < db.attendance.countP (matchesTriple sid cid d) := by
      rw [List.any_eq_true] at hany
      obtain ⟨a, ha, hpa⟩ := hany
      exact List.countP_pos_iff.mpr ⟨a, ha, hpa⟩
    omega
  · simp only [hany, if_false, Bool.false_eq_true]
    have h0 : db.attendance.countP (matchesTriple sid cid d) = 0 := by
      rw [List.countP_eq_zero]
      intro a ha hc
      exact hany (List.any_eq_true.mpr ⟨a, ha, hc⟩)
    simp [List.countP_append, h0, List.countP_cons, matchesTriple_new]

lemma updateFirst_set_status (sid cid : String) (d : DateTime) (st nt : String) :
    ∀ l : List AttendanceDoc, l.countP (matchesTriple sid cid d) ≤ 1 →
      ∀ r ∈ updateFirst (matchesTriple sid cid d) (setStatusNotes st nt) l,
        matchesTriple sid cid d r = true → r.status = st ∧ r.notes = nt := by
  intro l
  induction l with
  | nil => intro _ r hr; cases hr
  | cons a as ih =>
    intro hcount r hr hmatch
    by_cases ha : matchesTriple sid cid d a = true
    · rw [updateFirst, if_pos ha] at hr
      rcases List.mem_cons.mp hr with rfl | hmem
      · exact ⟨rfl, rfl⟩
      · exfalso
        have hzero : as.countP (matchesTriple sid cid d) = 0 := by
          rw [List.countP_cons, if_pos ha] at hcount
          omega
        have := List.countP_eq_zero.mp hzero r hmem
        exact this hmatch
    · rw [updateFirst, if_neg ha] at hr
      rcases List.mem_cons.mp hr with rfl | hmem
      · exact absurd hmatch ha
      · refine ih ?_ r hmem hmatch
        rw [List.countP_cons] at hcount
        omega

lemma upsert_matches_status (db : DB) (sid cid : String) (d : DateTime)
    (st nt : String) (h : countTriple db sid cid d ≤ 1) :
    ∀ r ∈ (upsertAttendance db sid cid d st nt).attendance,
      matchesTriple sid cid d r = true → r.status = st ∧ r.notes = nt := by
  unfold upsertAttendance
  by_cases hany : db.attendance.any (matchesTriple sid cid d) = true
  · simp only [hany, if_true]
    exact updateFirst_set_status sid cid d st nt db.attendance h
  · simp only [hany, if_false, Bool.false_eq_true]
    intro r hr hm
    rcases List.mem_append.mp hr with hmem | hmem
    · exfalso
      rw [Bool.not_eq_true] at hany
      have : db.attendance.any (matchesTriple sid cid d) = true :=
        List.any_eq_true.mpr ⟨r, hmem, hm⟩
      rw [hany] at this
      cases this
    · rcases List.mem_singleton.mp hmem with rfl
      exact ⟨rfl, rfl⟩

lemma upsert_unique_preserved (db : DB) (sid cid : String) (d : DateTime)
    (st nt : String) (h : UniqueTriples db) :
    UniqueTriples (upsertAttendance db sid cid d st nt) := by
  intro sid' cid' d'
  unfold countTriple upsertAttendance
  by_cases hany : db.attendance.any (matchesTriple sid cid d) = true
  · simp only [hany, if_true]
    rw [countP_updateFirst _ _ _ (matchesTriple_set sid' cid' d' st nt)]
    exact h sid' cid' d'
  · simp only [hany, if_false, Bool.false_eq_true]
    rw [List.countP_append]
    by_cases hnew : matchesTriple sid' cid' d'
        ⟨freshOid db.nextOid, sid, cid, d, st, nt⟩ = true
    · have hs : sid = sid' ∧ cid = cid' ∧ dtSecs d = dtSecs d' := by
        simpa [matchesTriple, and_assoc] using hnew
      obtain ⟨h1, h2, h3⟩ := hs
      subst h1
      subst h2
      have hagree : matchesTriple sid cid d' = matchesTriple sid cid d := by
        funext r
        unfold matchesTriple
        rw [← h3]
      rw [hagree]
      have h0 : db.attendance.countP (matchesTriple sid cid d) = 0 := by
        rw [List.countP_eq_zero]
        intro a ha hc
        exact hany (List.any_eq_true.mpr ⟨a, ha, hc⟩)
      simp [h0, List.countP_cons, hagree ▸ hnew]
    · have hone : List.countP (matchesTriple sid' cid' d')
          [(⟨freshOid db.nextOid, sid, cid, d, st, nt⟩ : AttendanceDoc)] = 0 := by
        simp [List.countP_cons, hnew]
      rw [hone]
      have := h sid' cid' d'
      unfold countTriple at this
      omega

lemma updateFirst_id {α : Type} (p : α → Bool) (f : α → α) :
    ∀ l : List α, (∀ a ∈ l, p a = true → f a = a) → updateFirst p f l = l := by
  intro l
  induction l with
  | nil => intro _; rfl
  | cons a as ih =>
    intro h
    by_cases ha : p a = true
    · rw [updateFirst, if_pos ha, h a (List.mem_cons_self a as) ha]
    · rw [updateFirst, if_neg ha, ih (fun b hb => h b (List.mem_cons_of_mem a hb))]

lemma setStatusNotes_id (st nt : String) (r : AttendanceDoc)
    (h1 : r.status = st) (h2 : r.notes = nt) : setStatusNotes st nt r = r := by
  cases r
  simp_all [setStatusNotes]

lemma any_of_countTriple_pos (db : DB) (sid cid : String) (d : DateTime)
    (h : 1 ≤ countTriple db sid cid d) :
    db.attendance.any (matchesTriple sid cid d) = true := by
  rw [List.any_eq_true]
  unfold countTriple at h
  exact List.countP_pos_iff.mp (by omega)

lemma upsert_idempotent (db : DB) (sid cid : String) (d : DateTime) (st nt : String)
    (hall : ∀ r ∈ db.attendance, matchesTriple sid cid d r = true →
      r.status = st ∧ r.notes = nt)
    (hany : db.attendance.any (matchesTriple sid cid d) = true) :
    upsertAttendance db sid cid d st nt = db := by
  unfold upsertAttendance
  rw [if_pos hany]
  rw [updateFirst_id _ _ _
    (fun a ha hpa => setStatusNotes_id st nt a (hall a ha hpa).1 (hall a ha hpa).2)]

/-! ### Composition lemmas for the `mark_attendance` loop -/

lemma entryError_none_parts (db : DB) (cid : String) (e : MarkEntry) (sid st : String)
    (h1 : e.student_id = some sid) (h2 : e.status = some st) (hst : st ≠ "")
    (hv : is_valid_objectId sid = true)
    (hs : studentExists db (oidNorm sid) = true)
    (hc : courseExists db (oidNorm cid) = true) :
    entryError db cid e = none := by
  have hts : truthyS (some sid) = true := valid_truthy sid hv
  have htt : truthyS e.status = true := by simp [h2, truthyS, hst]
  simp [entryError, h1, hts, htt, hv, hs, hc]

lemma mark_attendance_single (db : DB) (cid dstr : String) (d : DateTime) (e : MarkEntry)
    (hcv : is_valid_objectId cid = true) (hd : parseDate dstr = some d)
    (he : entryError db cid e = none) :
    mark_attendance (some ⟨some cid, some dstr, some [e]⟩) db
      = (.ok [⟨e.student_id.getD "", cid, isoformat d, e.status.getD "",
           e.notes.getD ""⟩],
         applyEntry cid d db e) := by
  rw [mark_attendance_unfold db cid dstr d [e] hcv hd rfl]
  rw [processRecords_cons_ok cid d e [] db he]
  simp [processRecords]

lemma processRecords_err_after_prefix (cid : String) (d : DateTime)
    (post : List MarkEntry) (c : Nat) (m : String) :
    ∀ (pre : List MarkEntry) (db : DB) (bad : MarkEntry),
      (∀ e ∈ pre, entryError db cid e = none) →
      entryError (applyEntries cid d pre db) cid bad = some (c, m) →
      processRecords cid d (pre ++ bad :: post) db
        = (.err c m, applyEntries cid d pre db) := by
  intro pre
  induction pre with
  | nil =>
    intro db bad _ hbad
    exact processRecords_cons_err cid d bad post db c m hbad
  | cons e pre ih =>
    intro db bad hpre hbad
    have he : entryError db cid e = none := hpre e (List.mem_cons_self e pre)
    rw [List.cons_append]
    rw [processRecords_cons_ok cid d e (pre ++ bad :: post) db he]
    have hpre' : ∀ e' ∈ pre, entryError (applyEntry cid d db e) cid e' = none := by
      intro e' he'
      rw [entryError_congr db (applyEntry cid d db e) cid e'
        (applyEntry_students ..) (applyEntry_courses ..)]
      exact hpre e' (List.mem_cons_of_mem e he')
    have hrec := ih (applyEntry cid d db e) bad hpre' hbad
    rw [hrec]
    rfl

/-! ### C6: the per-entry checks fire in order and abort the batch -/

/-- C6: with valid top-level fields, the first entry of the batch is checked
in order — presence of `student_id` and `status` (400), well-formedness of
`student_id` (400), existence of the student (404), existence of the course
(404) — and the first failing check aborts the call immediately with the
store untouched. -/
theorem mark_attendance_entry_check_order (db : DB) (cid dstr : String) (d : DateTime)
    (e : MarkEntry) (rest : List MarkEntry)
    (hcv : is_valid_objectId cid = true) (hd : parseDate dstr = some d) :
    ((truthyS e.student_id && truthyS e.status) = false →
      mark_attendance (some ⟨some cid, some dstr, some (e :: rest)⟩) db
        = (.err 400 "Each record must include student_id and status", db)) ∧
    ((truthyS e.student_id && truthyS e.status) = true →
      is_valid_objectId (e.student_id.getD "") = false →
      mark_attendance (some ⟨some cid, some dstr, some (e :: rest)⟩) db
        = (.err 400 ("Invalid student_id: " ++ e.student_id.getD ""), db)) ∧
    ((truthyS e.student_id && truthyS e.status) = true →
      is_valid_objectId (e.student_id.getD "") = true →
      studentExists db (oidNorm (e.student_id.getD "")) = false →
      mark_attendance (some ⟨some cid, some dstr, some (e :: rest)⟩) db
        = (.err 404 ("Student not found: " ++ e.student_id.getD ""), db)) ∧
    ((truthyS e.student_id && truthyS e.status) = true →
      is_valid_objectId (e.student_id.getD "") = true →
      studentExists db (oidNorm (e.student_id.getD "")) = true →
      courseExists db (oidNorm cid) = false →
      mark_attendance (some ⟨some cid, some dstr, some (e :: rest)⟩) db
        = (.err 404 ("Course not found: " ++ cid), db)) := by
  refine ⟨fun hp => ?_, fun hp hf => ?_, fun hp hf hs => ?_, fun hp hf hs hc => ?_⟩
  · rw [mark_attendance_unfold db cid dstr d (e :: rest) hcv hd rfl]
    apply processRecords_cons_err
    simp [entryError, hp]
  · rw [mark_attendance_unfold db cid dstr d (e :: rest) hcv hd rfl]
    apply processRecords_cons_err
    simp [entryError, hp, hf]
  · rw [mark_attendance_unfold db cid dstr d (e :: rest) hcv hd rfl]
    apply processRecords_cons_err
    simp [entryError, hp, hf, hs]
  · rw [mark_attendance_unfold db cid dstr d (e :: rest) hcv hd rfl]
    apply processRecords_cons_err
    simp [entryError, hp, hf, hs, hc]

/-- Witness for C6: an entry referencing an unknown (but well-formed)
student id is rejected 404 with the store unchanged. -/
theorem mark_attendance_entry_check_order_witness :
    mark_attendance (some ⟨some wCid, some "2024-01-05",
        some [⟨some wGhost, some "present", none⟩]⟩) wDb
      = (.err 404 ("Student not found: " ++ wGhost), wDb) :=
  (mark_attendance_entry_check_order wDb wCid "2024-01-05" wDate
      ⟨some wGhost, some "present", none⟩ [] (by decide) (by decide)).2.2.1
    rfl (by decide) (by decide)

/-! ### C2: the batch commits every entry before the first failing one -/

/-- C2: a `mark_attendance` batch made of passing entries `pre`, then an
entry `bad` whose well-formed `student_id` references no stored student,
then arbitrary entries `post`, returns the 404 student-not-found error while
the store ends exactly in the state reached by upserting `pre` in order: the
earlier writes stay committed and nothing after `bad` is processed. -/
theorem mark_attendance_batch_prefix_committed (db : DB) (cid dstr : String)
    (d : DateTime) (pre post : List MarkEntry) (bad : MarkEntry) (bsid : String)
    (hcv : is_valid_objectId cid = true) (hd : parseDate dstr = some d)
    (hpre : ∀ e ∈ pre, entryError db cid e = none)
    (hb1 : bad.student_id = some bsid) (hb2 : truthyS bad.status = true)
    (hb3 : is_valid_objectId bsid = true)
    (hb4 : studentExists db (oidNorm bsid) = false) :
    mark_attendance (some ⟨some cid, some dstr, some (pre ++ bad :: post)⟩) db
      = (.err 404 ("Student not found: " ++ bsid), applyEntries cid d pre db) := by
  have hne : truthyL (some (pre ++ bad :: post)) = true := by cases pre <;> rfl
  rw [mark_attendance_unfold db cid dstr d (pre ++ bad :: post) hcv hd hne]
  have hts : truthyS (some bsid) = true := valid_truthy bsid hb3
  have hbe : entryError (applyEntries cid d pre db) cid bad
      = some (404, "Student not found: " ++ bsid) := by
    rw [entryError_congr db (applyEntries cid d pre db) cid bad
      (applyEntries_students ..) (applyEntries_courses ..)]
    simp [entryError, hb1, hts, hb2, hb3, hb4]
  exact processRecords_err_after_prefix cid d post 404 _ pre db bad hpre hbe

/-- Witness for C2: a batch of one valid entry then one entry referencing an
unknown student returns 404 while the valid entry's upsert stays in the
store. -/
theorem mark_attendance_batch_prefix_committed_witness :
    mark_attendance (some ⟨some wCid, some "2024-01-05",
        some [⟨some wSid, some "present", none⟩, ⟨some wGhost, some "absent", none⟩]⟩) wDb
      = (.err 404 ("Student not found: " ++ wGhost),
         applyEntries wCid wDate [⟨some wSid, some "present", none⟩] wDb) :=
  mark_attendance_batch_prefix_committed wDb wCid "2024-01-05" wDate
    [⟨some wSid, some "present", none⟩] [] ⟨some wGhost, some "absent", none⟩ wGhost
    (by decide) (by decide) (by decide) rfl rfl (by decide) (by decide)

/-! ### C1: the upsert keeps at most one record per triple -/

/-- C1: starting from a store satisfying the one-record-per-triple
invariant, marking a known (student, course) pair on a date with one status
and then again with another leaves the invariant intact and exactly one
record for that triple, carrying the second status and notes: the second
mark overwrites in place instead of inserting a duplicate. -/
theorem mark_attendance_triple_unique (db db1 db2 : DB) (r1 r2 : MarkResp)
    (cid sid dstr : String) (d : DateTime) (s1 s2 : String) (n1 n2 : Option String)
    (hcv : is_valid_objectId cid = true) (hd : parseDate dstr = some d)
    (hsv : is_valid_objectId sid = true) (hs1 : s1 ≠ "") (hs2 : s2 ≠ "")
    (hstud : studentExists db (oidNorm sid) = true)
    (hcourse : courseExists db (oidNorm cid) = true)
    (huniq : UniqueTriples db)
    (hm1 : mark_attendance (some ⟨some cid, some dstr,
      some [⟨some sid, some s1, n1⟩]⟩) db = (r1, db1))
    (hm2 : mark_attendance (some ⟨some cid, some dstr,
      some [⟨some sid, some s2, n2⟩]⟩) db1 = (r2, db2)) :
    UniqueTriples db2 ∧ countTriple db2 (oidNorm sid) (oidNorm cid) d = 1 ∧
      ∀ r ∈ db2.attendance, matchesTriple (oidNorm sid) (oidNorm cid) d r = true →
        r.status = s2 ∧ r.notes = n2.getD "" := by
  have he1 : entryError db cid ⟨some sid, some s1, n1⟩ = none :=
    entryError_none_parts db cid _ sid s1 rfl rfl hs1 hsv hstud hcourse
  rw [mark_attendance_single db cid dstr d _ hcv hd he1] at hm1
  injection hm1 with hm1r hm1d
  subst hm1d
  have hu1 : UniqueTriples (applyEntry cid d db ⟨some sid, some s1, n1⟩) :=
    upsert_unique_preserved db (oidNorm sid) (oidNorm cid) d s1 (n1.getD "") huniq
  have he2 : entryError (applyEntry cid d db ⟨some sid, some s1, n1⟩) cid
      ⟨some sid, some s2, n2⟩ = none := by
    rw [entryError_congr db (applyEntry cid d db ⟨some sid, some s1, n1⟩) cid _
      (applyEntry_students ..) (applyEntry_courses ..)]
    exact entryError_none_parts db cid _ sid s2 rfl rfl hs2 hsv hstud hcourse
  rw [mark_attendance_single _ cid dstr d _ hcv hd he2] at hm2
  injection hm2 with hm2r hm2d
  subst hm2d
  have hc1 : countTriple (applyEntry cid d db ⟨some sid, some s1, n1⟩)
      (oidNorm sid) (oidNorm cid) d ≤ 1 := hu1 _ _ _
  refine ⟨?_, ?_, ?_⟩
  · exact upsert_unique_preserved _ (oidNorm sid) (oidNorm cid) d s2 (n2.getD "") hu1
  · exact countTriple_upsert_self _ (oidNorm sid) (oidNorm cid) d s2 (n2.getD "") hc1
  · exact upsert_matches_status _ (oidNorm sid) (oidNorm cid) d s2 (n2.getD "") hc1

/-- Witness for C1: marking present then absent over an empty attendance
collection leaves exactly one record for the triple. -/
theorem mark_attendance_triple_unique_witness :
    countTriple (mark_attendance (some ⟨some wCid, some "2024-01-05",
        some [⟨some wSid, some "absent", none⟩]⟩)
      (mark_attendance (some ⟨some wCid, some "2024-01-05",
        some [⟨some wSid, some "present", none⟩]⟩) wDb).2).2
      (oidNorm wSid) (oidNorm wCid) wDate = 1 :=
  (mark_attendance_triple_unique wDb _ _ _ _ wCid wSid "2024-01-05" wDate
    "present" "absent" none none (by decide) (by decide) (by decide)
    (by decide) (by decide) (by decide) (by decide)
    (by intro a b c; simp [countTriple, wDb]) rfl rfl).2.1

/-! ### C8: marking the same triple twice with the same data is idempotent -/

/-- C8: marking a triple twice with identical status and notes succeeds both
times with the same echoed per-entry result, leaves the store of the first
call untouched by the second, and after each call there is exactly one
record for the triple, carrying the input's status and notes. -/
theorem mark_attendance_idempotent (db db1 db2 : DB) (r1 r2 : MarkResp)
    (cid sid dstr : String) (d : DateTime) (st : String) (nt : Option String)
    (hcv : is_valid_objectId cid = true) (hd : parseDate dstr = some d)
    (hsv : is_valid_objectId sid = true) (hst : st ≠ "")
    (hstud : studentExists db (oidNorm sid) = true)
    (hcourse : courseExists db (oidNorm cid) = true)
    (huniq : UniqueTriples db)
    (hm1 : mark_attendance (some ⟨some cid, some dstr,
      some [⟨some sid, some st, nt⟩]⟩) db = (r1, db1))
    (hm2 : mark_attendance (some ⟨some cid, some dstr,
      some [⟨some sid, some st, nt⟩]⟩) db1 = (r2, db2)) :
    r1 = .ok [⟨sid, cid, isoformat d, st, nt.getD ""⟩] ∧ r2 = r1 ∧ db2 = db1 ∧
      countTriple db1 (oidNorm sid) (oidNorm cid) d = 1 ∧
      ∀ r ∈ db1.attendance, matchesTriple (oidNorm sid) (oidNorm cid) d r = true →
        r.status = st ∧ r.notes = nt.getD "" := by
  have he1 : entryError db cid ⟨some sid, some st, nt⟩ = none :=
    entryError_none_parts db cid _ sid st rfl rfl hst hsv hstud hcourse
  rw [mark_attendance_single db cid dstr d _ hcv hd he1] at hm1
  injection hm1 with hm1r hm1d
  subst hm1d
  have hcnt : countTriple (applyEntry cid d db ⟨some sid, some st, nt⟩)
      (oidNorm sid) (oidNorm cid) d = 1 :=
    countTriple_upsert_self db (oidNorm sid) (oidNorm cid) d st (nt.getD "")
      (huniq (oidNorm sid) (oidNorm cid) d)
  have hall : ∀ r ∈ (applyEntry cid d db ⟨some sid, some st, nt⟩).attendance,
      matchesTriple (oidNorm sid) (oidNorm cid) d r = true →
        r.status = st ∧ r.notes = nt.getD "" :=
    upsert_matches_status db (oidNorm sid) (oidNorm cid) d st (nt.getD "")
      (huniq (oidNorm sid) (oidNorm cid) d)
  have hany : (applyEntry cid d db ⟨some sid, some st, nt⟩).attendance.any
      (matchesTriple (oidNorm sid) (oidNorm cid) d) = true :=
    any_of_countTriple_pos _ (oidNorm sid) (oidNorm cid) d (le_of_eq hcnt.symm)
  have he2 : entryError (applyEntry cid d db ⟨some sid, some st, nt⟩) cid
      ⟨some sid, some st, nt⟩ = none := by
    rw [entryError_congr db (applyEntry cid d db ⟨some sid, some st, nt⟩) cid _
      (applyEntry_students ..) (applyEntry_courses ..)]
    exact he1
  rw [mark_attendance_single _ cid dstr d _ hcv hd he2] at hm2
  injection hm2 with hm2r hm2d
  have hid : applyEntry cid d (applyEntry cid d db ⟨some sid, some st, nt⟩)
      ⟨some sid, some st, nt⟩ = applyEntry cid d db ⟨some sid, some st, nt⟩ :=
    upsert_idempotent (applyEntry cid d db ⟨some sid, some st, nt⟩)
      (oidNorm sid) (oidNorm cid) d st (nt.getD "") hall hany
  refine ⟨hm1r.symm, ?_, ?_, hcnt, hall⟩
  · rw [← hm2r, ← hm1r]
  · rw [← hm2d, hid]

/-- Witness for C8: repeating the identical mark leaves the store of the
first call exactly as it was. -/
theorem mark_attendance_idempotent_witness :
    (mark_attendance (some ⟨some wCid, some "2024-01-05",
        some [⟨some wSid, some "present", none⟩]⟩)
      (mark_attendance (some ⟨some wCid, some "2024-01-05",
        some [⟨some wSid, some "present", none⟩]⟩) wDb).2).2
    = (mark_attendance (some ⟨some wCid, some "2024-01-05",
        some [⟨some wSid, some "present", none⟩]⟩) wDb).2 :=
  (mark_attendance_idempotent wDb _ _ _ _ wCid wSid "2024-01-05" wDate "present" none
    (by decide) (by decide) (by decide) (by decide) (by decide) (by decide)
    (by intro a b c; simp [countTriple, wDb]) rfl rfl).2.2.1
